import Mathlib

/-!
Verification development for the Meteorica impact-simulation repository
(HackSAERO).  The repository's `src/` tree holds the React client
(`formtesting.tsx`, `selectmeteroidform.tsx`, `SimulationPage.tsx`); the
Impact Physics & Deflection Engine described in the specification runs
server-side and is not part of `src/`, so the engine components below are
modelled from the specification and marked as such in their doc comments.
Client-side computations (crater radius = diameter / 2, the TNT division,
the `onSubmitSimulate` branching, `loadMeteoriteData` defaulting, and the
material select options) are embedded directly from the source files.
Machine floating-point numbers are embedded as rationals.
-/

namespace Meteorica

/-- JavaScript truthiness of an optional numeric value: `undefined`/`null`
and `0` are falsy, every other number is truthy
(used by `if (craterDiameter)` in `formtesting.tsx:211` and the
`if (Meteorite.radiusMeteroid)` guards in `formtesting.tsx:151-153`). -/
def truthyNum : Option ℚ → Bool
  | none => false
  | some v => decide (v ≠ 0)

/-- JavaScript truthiness of an optional string: `undefined`/`null` and the
empty string are falsy (used by `Meteorite.material || 'rock'` in
`formtesting.tsx:161`). -/
def truthyStr : Option String → Bool
  | none => false
  | some s => decide (s ≠ "")

/-- JavaScript `x || d` on an optional string value
(`formtesting.tsx:161`). -/
def jsOrStr (o : Option String) (d : String) : String :=
  if truthyStr o then o.getD d else d

/-- JavaScript `x || d` on an optional numeric value
(`formtesting.tsx:158-160`). -/
def jsOrNum (o : Option ℚ) (d : ℚ) : ℚ :=
  if truthyNum o then o.getD d else d

/-- MaterialProperties (spec §3): density and ram-pressure strength per
composition class. -/
structure MaterialProperties where
  density_kg_m3 : ℚ
  strength_pa : ℚ
  deriving Repr, DecidableEq

/-- Modelled from the spec: `MaterialTable.lookup` (§4.1) is not in `src/`.
Total over the closed enum of lowercase material tags used by the client
(`rock`, `iron`, `nickel`); `none` models the `InvalidMaterial` failure for
any unrecognized tag.  The numeric constants are representative calibration
values; no claim depends on their exact magnitudes. -/
def materialLookup : String → Option MaterialProperties
  | "rock" => some ⟨3000, 1000000⟩
  | "iron" => some ⟨7800, 50000000⟩
  | "nickel" => some ⟨8900, 60000000⟩
  | _ => none

/-- The options offered by the material `Select` of the meteorite creation
form (`selectmeteroidform.tsx:278-280`): exactly the three lowercase values
`rock`, `iron`, `nickel`. -/
def materialSelectOptions : List String := ["rock", "iron", "nickel"]

/-- MeteoroidParameters (spec §3): immutable input value. -/
structure MeteoroidParameters where
  radius_m : ℚ
  velocity_ms : ℚ
  entry_angle_deg : ℚ
  material : String
  deriving Repr, DecidableEq

/-- Rational stand-in for π used by the mass formula (the engine's binary
floating-point π is likewise an approximation of π). -/
def piQ : ℚ := 355 / 113

/-- Modelled from the spec: `EntryKinematics.compute` (§4.2) is not in
`src/`.  mass = (4/3)·π·radius³·density. -/
def massOf (radius density : ℚ) : ℚ := 4 / 3 * piQ * radius ^ 3 * density

/-- Modelled from the spec: kinetic energy = ½·mass·velocity² (§4.2). -/
def kineticEnergy (mass velocity : ℚ) : ℚ := 1 / 2 * mass * velocity ^ 2

/-- Number of fixed integration steps of the atmospheric-entry model
(spec §5 requires a fixed maximum step count). -/
def numSteps : ℕ := 20

/-- Top of the modelled atmosphere, metres. -/
def topAltitude : ℚ := 100000

/-- Altitude of integration step `i` (steps go from the top of the
atmosphere down towards the ground; every checked altitude is above
ground level). -/
def altitudeAt (i : ℕ) : ℚ := topAltitude * ((numSteps - i : ℕ) : ℚ) / (numSteps : ℚ)

/-- Sea-level air density, kg/m³. -/
def seaLevelAirDensity : ℚ := 1225 / 1000

/-- Modelled from the spec: exponential-density atmosphere (§4.3),
discretized geometrically — density halves with each step up from the
ground. -/
def airDensityAt (i : ℕ) : ℚ := seaLevelAirDensity * (1 / 2) ^ (numSteps - 1 - i)

/-- Modelled from the spec: the empirically tuned fragmentation-drag
multiplier (§4.3) applied to the post-breakup descent. -/
def fragDragMultiplier : ℚ := 3

/-- Per-step drag coefficient of the discretized integration. -/
def dragCoefficient : ℚ := 1 / 50

/-- Per-step ablation coefficient of the discretized integration. -/
def ablationCoefficient : ℚ := 1 / 100

/-- Modelled from the spec: the entry angle acts as a multiplicative factor
on the effective atmospheric column depth — shallower angles mean a longer
path (§4.3).  Equals 1 at a vertical (90°) entry and grows as the angle
shallows. -/
def pathFactor (angle : ℚ) : ℚ := (180 - angle) / 90

/-- A multiplicative per-step retention factor: the fraction of velocity
(resp. mass) kept across one integration step, clamped into [0,1] for any
nonnegative loss term. -/
def lossFactor (x : ℚ) : ℚ := 1 - min x 1

/-- State of the trajectory integration. -/
structure SimState where
  v : ℚ
  m : ℚ
  broke : Bool
  breakupAlt : Option ℚ
  deriving Repr, DecidableEq

/-- Fragmentation trigger at one step: ram pressure ρ_air·v² first exceeds
the material strength (§4.3). -/
def fragTrigger (strength rhoAir : ℚ) (s : SimState) : Bool :=
  !s.broke && decide (strength < rhoAir * s.v ^ 2)

/-- Whether the body is broken after the current step. -/
def brokeAfter (strength rhoAir : ℚ) (s : SimState) : Bool :=
  s.broke || fragTrigger strength rhoAir s

/-- Drag multiplier in force during a step: the fragmentation-drag
multiplier once broken, 1 before. -/
def stepMult (broke : Bool) : ℚ := if broke then fragDragMultiplier else 1

/-- Modelled from the spec: one step of the atmospheric-entry integration
(§4.3) — compare ram pressure against strength, record the first breakup
altitude, then apply the (fragmentation-amplified) drag and ablation
losses for this slab of atmosphere. -/
def simStep (strength pf : ℚ) (s : SimState) (i : ℕ) : SimState :=
  { v := s.v * lossFactor (dragCoefficient * airDensityAt i * pf *
           stepMult (brokeAfter strength (airDensityAt i) s))
    m := s.m * lossFactor (ablationCoefficient * airDensityAt i * pf *
           stepMult (brokeAfter strength (airDensityAt i) s))
    broke := brokeAfter strength (airDensityAt i) s
    breakupAlt := if fragTrigger strength (airDensityAt i) s
                  then some (altitudeAt i) else s.breakupAlt }

/-- Initial mass resolved by EntryKinematics. -/
def initialMass (p : MeteoroidParameters) (props : MaterialProperties) : ℚ :=
  massOf p.radius_m props.density_kg_m3

/-- Modelled from the spec: the deterministic fixed-step trajectory
integration of `AtmosphericEntryModel.simulate` (§4.3), folded from the
top of the atmosphere to the ground. -/
def simFinal (p : MeteoroidParameters) (props : MaterialProperties) : SimState :=
  (List.range numSteps).foldl
    (simStep props.strength_pa (pathFactor p.entry_angle_deg))
    { v := p.velocity_ms
      m := initialMass p props
      broke := false
      breakupAlt := none }

/-- Initial kinetic energy resolved by EntryKinematics. -/
def initialEnergy (p : MeteoroidParameters) (props : MaterialProperties) : ℚ :=
  kineticEnergy (initialMass p props) p.velocity_ms

/-- Kinetic energy delivered to the ground (e_after_j). -/
def finalEnergy (p : MeteoroidParameters) (props : MaterialProperties) : ℚ :=
  kineticEnergy (simFinal p props).m (simFinal p props).v

/-- AtmosphericImpactResult (spec §3): immutable once computed;
`breakup_altitude_m` is optional — absent (`none`) when no fragmentation
occurred. -/
structure AtmosphericImpactResult where
  f_atm : ℚ
  f_frag : ℚ
  f_total : ℚ
  broke : Bool
  breakup_altitude_m : Option ℚ
  final_velocity_ms : ℚ
  energy_lost_percent : ℚ
  e_after_j : ℚ
  deriving Repr, DecidableEq

/-- Modelled from the spec: `AtmosphericEntryModel.simulate` (§4.3) is not
in `src/`.  f_atm = e_after/e_initial, f_frag = surviving_mass/initial_mass,
f_total = f_atm·f_frag, energy_lost_percent = 100·(1−f_atm·f_frag). -/
def simulate (p : MeteoroidParameters) (props : MaterialProperties) :
    AtmosphericImpactResult :=
  { f_atm := finalEnergy p props / initialEnergy p props
    f_frag := (simFinal p props).m / initialMass p props
    f_total := (finalEnergy p props / initialEnergy p props) *
               ((simFinal p props).m / initialMass p props)
    broke := (simFinal p props).broke
    breakup_altitude_m := (simFinal p props).breakupAlt
    final_velocity_ms := (simFinal p props).v
    energy_lost_percent := 100 * (1 - (finalEnergy p props / initialEnergy p props) *
               ((simFinal p props).m / initialMass p props))
    e_after_j := finalEnergy p props }

/-- The TNT-equivalent constant 4.184×10¹⁵ J per megaton
(`formtesting.tsx:412` and `formtesting.tsx:882` divide by `4.184e15`). -/
def tntJoulesPerMegaton : ℚ := 4184 * 10 ^ 12

/-- Modelled from the spec: `ImpactEnergyCalculator.toTntEquivalent`
(§4.4) is not in `src/`; divides an energy in joules by the TNT-equivalent
constant. -/
def toTntEquivalent (energy_j : ℚ) : ℚ := energy_j / tntJoulesPerMegaton

/-- The "Impact Energy" shown in the results panel:
`atmospheric_impact?.E_after_J / 4.184e15` (`formtesting.tsx:882`). -/
def displayedImpactEnergyMT (r : AtmosphericImpactResult) : ℚ :=
  r.e_after_j / (4184 * 10 ^ 12)

/-- The impact energy drawn on the share-card canvas:
`atmospheric_impact?.E_after_J / 4.184e15` (`formtesting.tsx:412`). -/
def imageImpactEnergyMT (r : AtmosphericImpactResult) : ℚ :=
  r.e_after_j / (4184 * 10 ^ 12)

/-- Modelled from the spec: the server-side
`calculations.kinetic_energy_initial_megatons_tnt` (§4.4) applies
`toTntEquivalent` to the initial kinetic energy. -/
def kineticEnergyInitialMegatonsTnt (ke_initial_j : ℚ) : ℚ :=
  toTntEquivalent ke_initial_j

/-- Calibration coefficient of the crater power law (a versioned constant
per spec §9; no claim depends on its value). -/
def craterK : ℚ := 1 / 1000000

/-- Modelled from the spec: the strictly increasing crater power law
k·e^(1/3.4) of §4.5, represented by a rational strictly-monotone surrogate
since the fractional exponent is a calibration constant no claim tests. -/
def craterScale (e_after_j : ℚ) : ℚ := craterK * e_after_j

/-- Modelled from the spec: `CraterScalingModel.computeCrater` (§4.5) is
not in `src/`.  Total function returning `none` — a defined "no crater"
state, not an error — whenever `e_after_j ≤ 0`. -/
def computeCrater (e_after_j : ℚ) : Option ℚ :=
  if e_after_j ≤ 0 then none else some (craterScale e_after_j)

/-- CraterResult (spec §3): crater_diameter_m and
crater_radius_m = diameter/2. -/
structure CraterResult where
  crater_diameter_m : ℚ
  crater_radius_m : ℚ
  deriving Repr, DecidableEq

/-- The CraterResult derived from a crater diameter. -/
def craterResultOf (diameter : ℚ) : CraterResult :=
  { crater_diameter_m := diameter, crater_radius_m := diameter / 2 }

/-- `const radius = craterDiameter / 2` in `onSubmitSimulate`
(`formtesting.tsx:213`). -/
def craterRadiusOnSubmit (craterDiameter : ℚ) : ℚ := craterDiameter / 2

/-- The "Crater Radius" shown in the results panel:
`crater_diameter_m / 2` (`formtesting.tsx:870`). -/
def craterRadiusDisplay (crater_diameter_m : ℚ) : ℚ := crater_diameter_m / 2

/-- The crater radius used by the share-card canvas:
`crater_diameter_m / 2` (`formtesting.tsx:409-411`). -/
def craterRadiusImage (crater_diameter_m : ℚ) : ℚ := crater_diameter_m / 2

/-- The part of the fetched `/getUserMeteoriteById` response consumed by
the crater branch of `onSubmitSimulate`: an optional
`atmospheric_impact.crater_diameter_m` (`none` covers both an absent field
and a `null`). -/
structure SubmitResponse where
  crater_diameter_m : Option ℚ
  deriving Repr, DecidableEq

/-- The context state touched by `onSubmitSimulate`
(`setCraterRadius`, `setIsSimulating`). -/
structure SimUiState where
  craterRadius : Option ℚ
  isSimulating : Bool
  deriving Repr, DecidableEq

/-- The success path of `onSubmitSimulate` (`formtesting.tsx:200-228`):
`if (craterDiameter) { setCraterRadius(craterDiameter / 2) } else
{ warning toast }` followed unconditionally by `setIsSimulating(true)`. -/
def onSubmitSimulateSuccess (resp : SubmitResponse) (s : SimUiState) : SimUiState :=
  let s1 := if truthyNum resp.crater_diameter_m
            then { s with craterRadius := some ((resp.crater_diameter_m.getD 0) / 2) }
            else s
  { s1 with isSimulating := true }

/-- A saved meteorite record as mapped from the database
(`formtesting.tsx:53-64`): every physics field may be absent. -/
structure MeteoriteRecord where
  radiusMeteroid : Option ℚ
  velocity : Option ℚ
  angle : Option ℚ
  material : Option String
  deriving Repr, DecidableEq

/-- The fully-defined record `updateMeteroidData` receives for the 3D
visualization: no optional fields. -/
structure MeteroidData where
  radiusMeteroid : ℚ
  velocity : ℚ
  angle : ℚ
  material : String
  deriving Repr, DecidableEq

/-- The context update performed by `loadMeteoriteData`
(`formtesting.tsx:157-162`): `Meteorite.radiusMeteroid || 0`,
`Meteorite.velocity || 0`, `Meteorite.angle || 0`,
`Meteorite.material || 'rock'`. -/
def loadMeteoriteDataContext (rec : MeteoriteRecord) : MeteroidData :=
  { radiusMeteroid := jsOrNum rec.radiusMeteroid 0
    velocity := jsOrNum rec.velocity 0
    angle := jsOrNum rec.angle 0
    material := jsOrStr rec.material "rock" }

/-- Which `form.setValue` calls `loadMeteoriteData` performs
(`formtesting.tsx:151-154`): `some v` means the form field was overwritten
with `v`, `none` that it was left alone. -/
structure FormUpdates where
  radiusMeteroid : Option ℚ
  velocity : Option ℚ
  angle : Option ℚ
  material : Option String
  deriving Repr, DecidableEq

/-- The guarded form updates of `loadMeteoriteData`
(`formtesting.tsx:151-154`): each `setValue` runs only when the source
field is truthy. -/
def loadMeteoriteDataForm (rec : MeteoriteRecord) : FormUpdates :=
  { radiusMeteroid := if truthyNum rec.radiusMeteroid then rec.radiusMeteroid else none
    velocity := if truthyNum rec.velocity then rec.velocity else none
    angle := if truthyNum rec.angle then rec.angle else none
    material := if truthyStr rec.material then rec.material else none }

/-- Modelled from the spec: the discrete-impulse core relation of
`DeflectionStrategyEngine.evaluate` (§4.6), not in `src/`:
delta_v = (m_impactor · v_impactor · β) / M_object. -/
def deltaV (m_impactor v_impactor beta m_object : ℚ) : ℚ :=
  m_impactor * v_impactor * beta / m_object

end Meteorica

namespace Meteorica

/-- A fold preserves any invariant that every element-step preserves. -/
lemma foldl_preserve {α σ : Type} (P : σ → Prop) (f : σ → α → σ) (l : List α) :
    (∀ a ∈ l, ∀ s, P s → P (f s a)) → ∀ s, P s → P (l.foldl f s) := by
  induction l with
  | nil => intro _ s hs; simpa using hs
  | cons a l ih =>
    intro h s hs
    simp only [List.foldl_cons]
    exact ih (fun b hb t ht => h b (List.mem_cons_of_mem a hb) t ht) (f s a)
      (h a (List.mem_cons_self a l) s hs)

lemma lossFactor_nonneg {x : ℚ} : 0 ≤ lossFactor x := by
  unfold lossFactor
  have := min_le_right x 1
  linarith

lemma lossFactor_le_one {x : ℚ} (hx : 0 ≤ x) : lossFactor x ≤ 1 := by
  unfold lossFactor
  have : (0:ℚ) ≤ min x 1 := le_min hx zero_le_one
  linarith

lemma stepMult_nonneg (b : Bool) : 0 ≤ stepMult b := by
  cases b <;> norm_num [stepMult, fragDragMultiplier]

lemma airDensityAt_nonneg (i : ℕ) : 0 ≤ airDensityAt i := by
  unfold airDensityAt seaLevelAirDensity
  positivity

lemma altitudeAt_pos {i : ℕ} (hi : i < numSteps) : 0 < altitudeAt i := by
  unfold altitudeAt topAltitude
  have h1 : 0 < ((numSteps - i : ℕ) : ℚ) := by
    have : 0 < numSteps - i := Nat.sub_pos_of_lt hi
    exact_mod_cast this
  have h2 : (0:ℚ) < (numSteps : ℚ) := by norm_num [numSteps]
  exact div_pos (mul_pos (by norm_num) h1) h2

lemma lossTerm_nonneg {c pf : ℚ} (hc : 0 ≤ c) (hpf : 0 ≤ pf) (i : ℕ) (b : Bool) :
    0 ≤ c * airDensityAt i * pf * stepMult b :=
  mul_nonneg (mul_nonneg (mul_nonneg hc (airDensityAt_nonneg i)) hpf) (stepMult_nonneg b)

lemma simStep_bounds {strength pf v0 m0 : ℚ} (hpf : 0 ≤ pf) (i : ℕ) (s : SimState)
    (h : 0 ≤ s.v ∧ s.v ≤ v0 ∧ 0 ≤ s.m ∧ s.m ≤ m0) :
    0 ≤ (simStep strength pf s i).v ∧ (simStep strength pf s i).v ≤ v0 ∧
    0 ≤ (simStep strength pf s i).m ∧ (simStep strength pf s i).m ≤ m0 := by
  obtain ⟨hv0, hvle, hm0, hmle⟩ := h
  have hcd : (0:ℚ) ≤ dragCoefficient := by norm_num [dragCoefficient]
  have hca : (0:ℚ) ≤ ablationCoefficient := by norm_num [ablationCoefficient]
  have hx1 := lossTerm_nonneg hcd hpf i (brokeAfter strength (airDensityAt i) s)
  have hx2 := lossTerm_nonneg hca hpf i (brokeAfter strength (airDensityAt i) s)
  simp only [simStep]
  refine ⟨mul_nonneg hv0 lossFactor_nonneg, ?_, mul_nonneg hm0 lossFactor_nonneg, ?_⟩
  · exact le_trans (mul_le_of_le_one_right hv0 (lossFactor_le_one hx1)) hvle
  · exact le_trans (mul_le_of_le_one_right hm0 (lossFactor_le_one hx2)) hmle

lemma simFinal_bounds (p : MeteoroidParameters) (props : MaterialProperties)
    (hv : 0 ≤ p.velocity_ms) (ha : p.entry_angle_deg ≤ 180)
    (hm : 0 ≤ initialMass p props) :
    0 ≤ (simFinal p props).v ∧ (simFinal p props).v ≤ p.velocity_ms ∧
    0 ≤ (simFinal p props).m ∧ (simFinal p props).m ≤ initialMass p props := by
  have hpf : 0 ≤ pathFactor p.entry_angle_deg := by
    unfold pathFactor
    linarith
  unfold simFinal
  exact foldl_preserve
    (fun s => 0 ≤ s.v ∧ s.v ≤ p.velocity_ms ∧ 0 ≤ s.m ∧ s.m ≤ initialMass p props)
    (simStep props.strength_pa (pathFactor p.entry_angle_deg)) (List.range numSteps)
    (fun i _ s hs => simStep_bounds hpf i s hs)
    { v := p.velocity_ms, m := initialMass p props, broke := false, breakupAlt := none }
    ⟨hv, le_rfl, hm, le_rfl⟩

lemma fragTrigger_broke {strength rhoAir : ℚ} {s : SimState}
    (h : fragTrigger strength rhoAir s = true) : s.broke = false := by
  revert h
  unfold fragTrigger
  cases s.broke <;> simp

lemma simStep_breakup {strength pf : ℚ} {i : ℕ} (hi : i < numSteps) (s : SimState)
    (h : (s.broke = s.breakupAlt.isSome) ∧ s.breakupAlt.elim True (fun a => 0 < a)) :
    ((simStep strength pf s i).broke = (simStep strength pf s i).breakupAlt.isSome) ∧
    (simStep strength pf s i).breakupAlt.elim True (fun a => 0 < a) := by
  obtain ⟨h1, h2⟩ := h
  simp only [simStep, brokeAfter]
  cases ht : fragTrigger strength (airDensityAt i) s with
  | false => simpa [ht] using ⟨h1, h2⟩
  | true =>
    have hb := fragTrigger_broke ht
    simp [ht, hb, altitudeAt_pos hi]

lemma simFinal_breakup (p : MeteoroidParameters) (props : MaterialProperties) :
    ((simFinal p props).broke = (simFinal p props).breakupAlt.isSome) ∧
    (simFinal p props).breakupAlt.elim True (fun a => 0 < a) := by
  unfold simFinal
  exact foldl_preserve
    (fun s => (s.broke = s.breakupAlt.isSome) ∧ s.breakupAlt.elim True (fun a => 0 < a))
    (simStep props.strength_pa (pathFactor p.entry_angle_deg)) (List.range numSteps)
    (fun i hi s hs => simStep_breakup (List.mem_range.mp hi) s hs)
    { v := p.velocity_ms, m := initialMass p props, broke := false, breakupAlt := none }
    ⟨rfl, trivial⟩

lemma initialMass_pos {p : MeteoroidParameters} {props : MaterialProperties}
    (hr : 0 < p.radius_m) (hd : 0 < props.density_kg_m3) : 0 < initialMass p props := by
  unfold initialMass massOf
  have h3 : 0 < p.radius_m ^ 3 := pow_pos hr 3
  have hk : (0:ℚ) < 4 / 3 * piQ := by norm_num [piQ]
  exact mul_pos (mul_pos hk h3) hd

lemma kineticEnergy_pos {m v : ℚ} (hm : 0 < m) (hv : 0 < v) : 0 < kineticEnergy m v := by
  unfold kineticEnergy
  have := pow_pos hv 2
  have h12 : (0:ℚ) < 1 / 2 := by norm_num
  exact mul_pos (mul_pos h12 hm) this

lemma kineticEnergy_nonneg {m v : ℚ} (hm : 0 ≤ m) : 0 ≤ kineticEnergy m v := by
  unfold kineticEnergy
  have := sq_nonneg v
  have h12 : (0:ℚ) ≤ 1 / 2 := by norm_num
  exact mul_nonneg (mul_nonneg h12 hm) this

lemma kineticEnergy_mono {mA vA mB vB : ℚ} (hvA : 0 ≤ vA) (hmA : 0 ≤ mA)
    (hm : mA ≤ mB) (hv : vA ≤ vB) : kineticEnergy mA vA ≤ kineticEnergy mB vB := by
  unfold kineticEnergy
  have hsq : vA ^ 2 ≤ vB ^ 2 := pow_le_pow_left₀ hvA hv 2
  have hmB : (0:ℚ) ≤ 1 / 2 * mB := by linarith
  exact mul_le_mul (by linarith) hsq (sq_nonneg vA) hmB

end Meteorica

namespace Meteorica

/-- C1: for every AtmosphericImpactResult produced by `simulate` from valid
input (positive radius and velocity, entry angle in [0,90], positive
material density), the fractions f_atm and f_frag each lie in [0,1] and
f_total equals the product f_atm × f_frag exactly. -/
theorem fractions_unit_interval_and_product (p : MeteoroidParameters)
    (props : MaterialProperties) (hr : 0 < p.radius_m) (hv : 0 < p.velocity_ms)
    (ha0 : 0 ≤ p.entry_angle_deg) (ha : p.entry_angle_deg ≤ 90)
    (hd : 0 < props.density_kg_m3) :
    0 ≤ (simulate p props).f_atm ∧ (simulate p props).f_atm ≤ 1 ∧
    0 ≤ (simulate p props).f_frag ∧ (simulate p props).f_frag ≤ 1 ∧
    (simulate p props).f_total = (simulate p props).f_atm * (simulate p props).f_frag := by
  have hm0 : 0 < initialMass p props := initialMass_pos hr hd
  obtain ⟨hvF0, hvFle, hmF0, hmFle⟩ :=
    simFinal_bounds p props hv.le (by linarith) hm0.le
  have he0 : 0 < initialEnergy p props := kineticEnergy_pos hm0 hv
  have heF0 : 0 ≤ finalEnergy p props := kineticEnergy_nonneg hmF0
  have heFle : finalEnergy p props ≤ initialEnergy p props :=
    kineticEnergy_mono hvF0 hmF0 hmFle hvFle
  simp only [simulate]
  exact ⟨div_nonneg heF0 he0.le, (div_le_one he0).mpr heFle,
    div_nonneg hmF0 hm0.le, (div_le_one hm0).mpr hmFle, trivial⟩

/-- Witness for C1 at the Chelyabinsk-class fixture: radius 10 m, velocity
19000 m/s, angle 20°, rock density 3000 kg/m³. -/
theorem fractions_unit_interval_and_product_witness :
    (0 < (10:ℚ)) ∧ (0 < (19000:ℚ)) ∧ (0 ≤ (20:ℚ)) ∧ ((20:ℚ) ≤ 90) ∧ (0 < (3000:ℚ)) ∧
    (0 ≤ (simulate ⟨10, 19000, 20, "rock"⟩ ⟨3000, 1000000⟩).f_atm ∧
     (simulate ⟨10, 19000, 20, "rock"⟩ ⟨3000, 1000000⟩).f_atm ≤ 1 ∧
     0 ≤ (simulate ⟨10, 19000, 20, "rock"⟩ ⟨3000, 1000000⟩).f_frag ∧
     (simulate ⟨10, 19000, 20, "rock"⟩ ⟨3000, 1000000⟩).f_frag ≤ 1 ∧
     (simulate ⟨10, 19000, 20, "rock"⟩ ⟨3000, 1000000⟩).f_total =
       (simulate ⟨10, 19000, 20, "rock"⟩ ⟨3000, 1000000⟩).f_atm *
       (simulate ⟨10, 19000, 20, "rock"⟩ ⟨3000, 1000000⟩).f_frag) :=
  ⟨by norm_num, by norm_num, by norm_num, by norm_num, by norm_num,
   fractions_unit_interval_and_product ⟨10, 19000, 20, "rock"⟩ ⟨3000, 1000000⟩
     (by norm_num) (by norm_num) (by norm_num) (by norm_num) (by norm_num)⟩

/-- C2: at every place a crater radius is produced — the `onSubmitSimulate`
handler (`formtesting.tsx:213`), the results panel (`formtesting.tsx:870`),
the share-card canvas (`formtesting.tsx:409-411`), and the CraterResult
record — the crater radius equals the crater diameter divided by 2. -/
theorem crater_radius_is_half_diameter (d : ℚ) :
    craterRadiusOnSubmit d = d / 2 ∧
    craterRadiusDisplay d = d / 2 ∧
    craterRadiusImage d = d / 2 ∧
    (craterResultOf d).crater_diameter_m = d ∧
    (craterResultOf d).crater_radius_m = (craterResultOf d).crater_diameter_m / 2 ∧
    (∀ s : SimUiState, (onSubmitSimulateSuccess ⟨some d⟩ s).craterRadius =
      if d = 0 then s.craterRadius else some (d / 2)) := by
  refine ⟨rfl, rfl, rfl, rfl, rfl, fun s => ?_⟩
  by_cases hd : d = 0 <;>
    simp [onSubmitSimulateSuccess, truthyNum, hd]

/-- C3: the TNT-equivalent conversion divides an energy in joules by
4.184×10¹⁵ J/MT, and the same conversion is applied to the initial kinetic
energy (for `kinetic_energy_initial_megatons_tnt`) and to `e_after_j`
(for the reported impact energy at `formtesting.tsx:882` and `:412`). -/
theorem tnt_equivalent_conversion (e : ℚ) (r : AtmosphericImpactResult)
    (p : MeteoroidParameters) (props : MaterialProperties) :
    toTntEquivalent e = e / (4184 * 10 ^ 12) ∧
    displayedImpactEnergyMT r = toTntEquivalent r.e_after_j ∧
    imageImpactEnergyMT r = toTntEquivalent r.e_after_j ∧
    kineticEnergyInitialMegatonsTnt (initialEnergy p props) =
      toTntEquivalent (initialEnergy p props) :=
  ⟨rfl, rfl, rfl, rfl⟩

/-- C4: `computeCrater` yields the defined "no crater" state `none` exactly
when `e_after_j ≤ 0`, never an error, and the consumer
(`onSubmitSimulate`, `formtesting.tsx:200-228`) handles the absence as a
valid outcome: it still sets `isSimulating` and leaves the crater radius
untouched rather than failing. -/
theorem no_crater_is_defined_state (e : ℚ) (s : SimUiState) :
    (computeCrater e = none ↔ e ≤ 0) ∧
    ((computeCrater e).isSome ↔ 0 < e) ∧
    (onSubmitSimulateSuccess ⟨none⟩ s).isSimulating = true ∧
    (onSubmitSimulateSuccess ⟨none⟩ s).craterRadius = s.craterRadius := by
  by_cases he : e ≤ 0
  · simp [computeCrater, he, onSubmitSimulateSuccess, truthyNum]
  · have h0 : 0 < e := not_le.mp he
    simp [computeCrater, he, onSubmitSimulateSuccess, truthyNum, h0]

/-- C5: in every result of `simulate` the optional `breakup_altitude_m` is
present exactly when `broke` is true and, when present, is a positive
altitude (never a null-as-zero encoding); likewise the optional crater
diameter of `computeCrater`, when present, is positive, never zero. -/
theorem breakup_altitude_present_iff_broke (p : MeteoroidParameters)
    (props : MaterialProperties) (e : ℚ) :
    ((simulate p props).breakup_altitude_m.isSome = (simulate p props).broke) ∧
    ((simulate p props).breakup_altitude_m.elim True fun a => 0 < a) ∧
    ((computeCrater e).elim True fun d => 0 < d) := by
  obtain ⟨h1, h2⟩ := simFinal_breakup p props
  refine ⟨?_, ?_, ?_⟩
  · simp only [simulate]
    exact h1.symm
  · simpa only [simulate] using h2
  · by_cases he : e ≤ 0 <;>
      simp [computeCrater, craterScale, craterK, he]
    linarith [not_le.mp he]

/-- C6: every result of `simulate` has
energy_lost_percent = 100·(1 − f_atm·f_frag), with
f_atm = e_after/e_initial (kinetic-energy based) and
f_frag = surviving_mass/initial_mass. -/
theorem energy_lost_percent_formula (p : MeteoroidParameters)
    (props : MaterialProperties) :
    (simulate p props).energy_lost_percent =
      100 * (1 - (simulate p props).f_atm * (simulate p props).f_frag) ∧
    (simulate p props).f_atm = finalEnergy p props / initialEnergy p props ∧
    (simulate p props).f_frag = (simFinal p props).m / initialMass p props ∧
    finalEnergy p props = kineticEnergy (simFinal p props).m (simFinal p props).v ∧
    initialEnergy p props = kineticEnergy (initialMass p props) p.velocity_ms :=
  ⟨rfl, rfl, rfl, rfl, rfl⟩

/-- C7: the deflection delta_v equals (m_impactor · v_impactor · β) /
M_object and is inversely proportional to the object's mass: doubling
M_object halves delta_v. -/
theorem deltaV_inverse_in_object_mass (mi vi beta M : ℚ) (h : 0 < M) :
    deltaV mi vi beta M = mi * vi * beta / M ∧
    deltaV mi vi beta (2 * M) = deltaV mi vi beta M / 2 := by
  refine ⟨rfl, ?_⟩
  unfold deltaV
  rw [div_div]
  congr 1
  ring

/-- Witness for C7 with a DART-like impactor (500 kg at 6000 m/s, β = 3)
against a 10¹² kg object. -/
theorem deltaV_inverse_in_object_mass_witness :
    (0 < (1000000000000:ℚ)) ∧
    (deltaV 500 6000 3 1000000000000 = 500 * 6000 * 3 / 1000000000000 ∧
     deltaV 500 6000 3 (2 * 1000000000000) = deltaV 500 6000 3 1000000000000 / 2) :=
  ⟨by norm_num, deltaV_inverse_in_object_mass 500 6000 3 1000000000000 (by norm_num)⟩

/-- C8: on the success path of `onSubmitSimulate`, the crater radius
context state is set (to diameter/2) exactly for a truthy
`crater_diameter_m`; a diameter of 0, null, or absent leaves it unchanged
(so it stays null), while `isSimulating` becomes true after any successful
fetch, with or without crater data. -/
theorem submit_sets_state_iff_truthy_crater (resp : SubmitResponse)
    (s : SimUiState) (d : ℚ) (b : Bool) :
    (onSubmitSimulateSuccess resp s).isSimulating = true ∧
    (onSubmitSimulateSuccess ⟨some d⟩ s).craterRadius =
      (if d = 0 then s.craterRadius else some (d / 2)) ∧
    (onSubmitSimulateSuccess ⟨none⟩ s).craterRadius = s.craterRadius ∧
    (onSubmitSimulateSuccess ⟨some 0⟩ ⟨none, b⟩).craterRadius = none ∧
    (onSubmitSimulateSuccess ⟨none⟩ ⟨none, b⟩).craterRadius = none := by
  refine ⟨?_, ?_, ?_, ?_, ?_⟩
  · unfold onSubmitSimulateSuccess
    by_cases ht : truthyNum resp.crater_diameter_m = true <;> simp [ht]
  · by_cases hd : d = 0 <;> simp [onSubmitSimulateSuccess, truthyNum, hd]
  · simp [onSubmitSimulateSuccess, truthyNum]
  · simp [onSubmitSimulateSuccess, truthyNum]
  · simp [onSubmitSimulateSuccess, truthyNum]

/-- C9: every material value offered by the material selector
(`selectmeteroidform.tsx:278-280`) is one of the three lowercase strings
`rock`, `iron`, `nickel`, and `materialLookup` succeeds on all of them, so
the InvalidMaterial branch is unreachable from valid UI input. -/
theorem material_select_options_closed (m : String) (h : m ∈ materialSelectOptions) :
    (m = "rock" ∨ m = "iron" ∨ m = "nickel") ∧ (materialLookup m).isSome = true := by
  simp only [materialSelectOptions, List.mem_cons, List.not_mem_nil, or_false] at h
  rcases h with rfl | rfl | rfl <;> exact ⟨by tauto, rfl⟩

/-- Witness for C9 at the first select option. -/
theorem material_select_options_closed_witness :
    ("rock" ∈ materialSelectOptions) ∧
    (("rock" = "rock" ∨ "rock" = "iron" ∨ "rock" = "nickel") ∧
     (materialLookup "rock").isSome = true) :=
  ⟨by simp [materialSelectOptions],
   material_select_options_closed "rock" (by simp [materialSelectOptions])⟩

/-- C10: `loadMeteoriteData` (`formtesting.tsx:150-168`) passes a
fully-defined record to the 3D-visualization context — absent or zero
numeric fields become 0 and an absent material becomes `rock` (the
`MeteroidData` record has no optional fields) — while each form field is
overwritten exactly when the source value is truthy. -/
theorem load_meteorite_data_defaults (rec : MeteoriteRecord) :
    ((loadMeteoriteDataContext rec).radiusMeteroid = jsOrNum rec.radiusMeteroid 0) ∧
    ((loadMeteoriteDataContext { rec with radiusMeteroid := none }).radiusMeteroid = 0) ∧
    ((loadMeteoriteDataContext { rec with radiusMeteroid := some 0 }).radiusMeteroid = 0) ∧
    ((loadMeteoriteDataContext { rec with velocity := none }).velocity = 0) ∧
    ((loadMeteoriteDataContext { rec with velocity := some 0 }).velocity = 0) ∧
    ((loadMeteoriteDataContext { rec with angle := none }).angle = 0) ∧
    ((loadMeteoriteDataContext { rec with angle := some 0 }).angle = 0) ∧
    ((loadMeteoriteDataContext { rec with material := none }).material = "rock") ∧
    ((loadMeteoriteDataContext rec).material ≠ "") ∧
    ((loadMeteoriteDataForm rec).radiusMeteroid =
      if truthyNum rec.radiusMeteroid then rec.radiusMeteroid else none) ∧
    ((loadMeteoriteDataForm rec).radiusMeteroid = none ↔
      truthyNum rec.radiusMeteroid = false) ∧
    ((loadMeteoriteDataForm rec).material = none ↔ truthyStr rec.material = false) := by
  obtain ⟨ra, rv, rg, rm⟩ := rec
  refine ⟨rfl, ?_, ?_, ?_, ?_, ?_, ?_, ?_, ?_, rfl, ?_, ?_⟩
  · simp [loadMeteoriteDataContext, jsOrNum, truthyNum]
  · simp [loadMeteoriteDataContext, jsOrNum, truthyNum]
  · simp [loadMeteoriteDataContext, jsOrNum, truthyNum]
  · simp [loadMeteoriteDataContext, jsOrNum, truthyNum]
  · simp [loadMeteoriteDataContext, jsOrNum, truthyNum]
  · simp [loadMeteoriteDataContext, jsOrNum, truthyNum]
  · simp [loadMeteoriteDataContext, jsOrStr, truthyStr]
  · cases rm with
    | none => simp [loadMeteoriteDataContext, jsOrStr, truthyStr]
    | some sm =>
      by_cases hs : sm = "" <;>
        simp [loadMeteoriteDataContext, jsOrStr, truthyStr, hs]
  · cases ra with
    | none => simp [loadMeteoriteDataForm, truthyNum]
    | some v =>
      by_cases hv : v = 0 <;> simp [loadMeteoriteDataForm, truthyNum, hv]
  · cases rm with
    | none => simp [loadMeteoriteDataForm, truthyStr]
    | some sm =>
      by_cases hs : sm = "" <;> simp [loadMeteoriteDataForm, truthyStr, hs]

end Meteorica
